import Mathlib

/-!
Verification of the core of the chaelri-todo application against its
specification: the live list synchronizer, the mutation operations
(create, toggle-done, add-comment), the device-token registry, and the
push fan-out trigger. Every definition below is a shallow embedding of
the corresponding TypeScript function in src/App.tsx,
src/components/TodoForm.tsx, src/components/CommentSection.tsx or
functions/src/index.ts. Timestamps are modelled as natural numbers;
asynchronous calls that can fail are modelled by an explicit outcome
environment; the effects of one invocation are modelled as an ordered
trace of events.
-/

/-- Timestamps are modelled as natural numbers ordered as the store orders
Timestamp values. -/
abbrev Timestamp := Nat

/-! ### Live List Synchronizer (App.tsx, onSnapshot listener) -/

/-- Raw document data as delivered by the store in a snapshot. Optional
fields may be missing (`none`); the client normalizes them. -/
structure DocData where
  text : Option String
  imageUrl : Option String
  createdAt : Timestamp
  done : Option Bool
deriving DecidableEq

/-- One document of a snapshot: its id and its data. -/
structure DocSnap where
  id : String
  data : DocData
deriving DecidableEq

/-- Client-side list item, mirroring the TodoItem shape in App.tsx after
normalization: text and imageUrl default to null, done defaults to false. -/
structure TodoItem where
  id : String
  text : Option String
  imageUrl : Option String
  createdAt : Timestamp
  done : Bool
deriving DecidableEq

/-- Body of the onSnapshot listener in App.tsx: map each delivered document
to a TodoItem, normalizing missing fields (text to null, imageUrl to null,
done to false). Order of documents is preserved. -/
def snapshotToList (docs : List DocSnap) : List TodoItem :=
  docs.map fun d =>
    { id := d.id
      text := d.data.text
      imageUrl := d.data.imageUrl
      createdAt := d.data.createdAt
      done := d.data.done.getD false }

/-- The listener calls setTodos with the freshly mapped list: the previous
local list is replaced wholesale and does not influence the result. -/
def onSnapshotUpdate (_prev : List TodoItem) (docs : List DocSnap) :
    List TodoItem :=
  snapshotToList docs

/-- The list is sorted by createdAt descending (newest first). -/
def sortedByCreatedAtDesc (l : List TodoItem) : Prop :=
  l.Pairwise fun a b => b.createdAt ≤ a.createdAt

/-! ### Create mutation (App.tsx addTodo, TodoForm.tsx handleSubmit) -/

/-- A file chosen in the form; only its name is observable in the data
flow (it becomes part of the blob path). -/
structure File where
  name : String
deriving DecidableEq

/-- Outcomes of the asynchronous calls made by addTodo: whether uploadBytes
succeeds, whether getDownloadURL succeeds and which URL it resolves for a
given blob path, and whether addDoc succeeds. -/
structure AddEnv where
  uploadOk : Bool
  urlOk : Bool
  urlOf : String → String
  writeOk : Bool

/-- A Todo document as written by addDoc inside addTodo. The text field has
type String because the code writes `text ?? ""`: a null text is never
stored by this client. -/
structure TodoWrite where
  text : String
  imageUrl : Option String
  createdAt : Timestamp
  done : Bool
deriving DecidableEq

/-- Observable effects of one create invocation, in program order. -/
inductive Event where
  | upload (path : String)
  | getURL (path : String)
  | writeTodo (w : TodoWrite)
  | toastMsg (m : String)
  | alertMsg (m : String)
  | throwRef (idName : String)
deriving DecidableEq

/-- Blob path built by addTodo: "todos/" + Date.now() + "-" + file.name. -/
def uploadPath (now : Timestamp) (f : File) : String :=
  "todos/" ++ toString now ++ "-" ++ f.name

/-- Shallow embedding of addTodo (App.tsx) as the ordered trace of its
observable effects. The guard rejects when the text is null or empty and no
file is given, before any upload or write. With a file, uploadBytes runs
first, then getDownloadURL, and only on success of both is the document
written; any thrown failure is caught and surfaced as a toast. Date.now()
and Timestamp.now() are both taken from the client clock value now. -/
def addTodo (text : Option String) (file : Option File) (env : AddEnv)
    (now : Timestamp) : List Event :=
  if (text = none ∨ text = some "") ∧ file = none then
    [Event.toastMsg "Please add text or an image."]
  else
    match file with
    | some f =>
      let path := uploadPath now f
      if env.uploadOk then
        if env.urlOk then
          if env.writeOk then
            [Event.upload path, Event.getURL path,
             Event.writeTodo
               { text := text.getD ""
                 imageUrl := some (env.urlOf path)
                 createdAt := now
                 done := false },
             Event.toastMsg "Todo added"]
          else
            [Event.upload path, Event.getURL path,
             Event.toastMsg "Failed to add todo."]
        else
          [Event.upload path, Event.toastMsg "Failed to add todo."]
      else
        [Event.upload path, Event.toastMsg "Failed to add todo."]
    | none =>
      if env.writeOk then
        [Event.writeTodo
           { text := text.getD ""
             imageUrl := none
             createdAt := now
             done := false },
         Event.toastMsg "Todo added"]
      else
        [Event.toastMsg "Failed to add todo."]

/-- The Todo documents written during a trace. -/
def writesOf (es : List Event) : List TodoWrite :=
  es.filterMap fun e =>
    match e with
    | Event.writeTodo w => some w
    | _ => none

/-- The blob upload calls issued during a trace. -/
def uploadsOf (es : List Event) : List String :=
  es.filterMap fun e =>
    match e with
    | Event.upload p => some p
    | _ => none

/-- The toast messages surfaced during a trace. -/
def toastsOf (es : List Event) : List String :=
  es.filterMap fun e =>
    match e with
    | Event.toastMsg m => some m
    | _ => none

/-- Applying the document writes of a trace to the todos collection: addDoc
appends fresh documents. An empty batch leaves the store unchanged. -/
def applyWrites (store : List TodoWrite) (ws : List TodoWrite) :
    List TodoWrite :=
  store ++ ws

/-- Whitespace predicate used to model the JS String trim method. -/
def isJsSpace (c : Char) : Bool :=
  c == ' ' || c == '\t' || c == '\n' || c == '\r'

/-- Model of the JS String trim method: drop whitespace from both ends. -/
def jsTrim (s : String) : String :=
  String.mk (((s.toList.dropWhile isJsSpace).reverse.dropWhile
    isJsSpace).reverse)

/-- Shallow embedding of TodoForm.handleSubmit as the source executes.
After e.preventDefault(), the first statement of the body calls
requestNotificationsIfNeeded(), an identifier that is undefined in the
module scope of TodoForm.tsx: the function of that name is local to the
App component in App.tsx, it is not imported, and the onBeforeAdd prop
that App passes is not declared in the Props interface of TodoForm and is
not destructured. The call therefore throws a ReferenceError before the
guard, before the alert, and before onAdd, so the trace of every
submission is the thrown reference error and nothing else: the downstream
guard-then-addTodo flow (trim the text, alert when both the trimmed text
and the file are absent, otherwise call addTodo with
`text.trim() || null`) is unreachable through the form. -/
def handleSubmit (_text : String) (_file : Option File) (_env : AddEnv)
    (_now : Timestamp) : List Event :=
  [Event.throwRef "requestNotificationsIfNeeded"]

/-! ### Toggle-done mutation (App.tsx toggleDone, updateDoc) -/

/-- A Todo document at rest in the store. -/
structure StoredTodo where
  id : String
  text : String
  imageUrl : Option String
  createdAt : Timestamp
  done : Bool
deriving DecidableEq

/-- updateDoc(doc(db, "todos", id), { done := b }): a partial-field write
keyed by id, last-write-wins, leaving other documents untouched. -/
def updateDone (store : List StoredTodo) (id : String) (b : Bool) :
    List StoredTodo :=
  store.map fun d => if d.id = id then { d with done := b } else d

/-- toggleDone (App.tsx): writes done := not current, where current is the
value the caller read from the current snapshot (TodoList passes t.done). -/
def toggleDone (store : List StoredTodo) (id : String) (current : Bool) :
    List StoredTodo :=
  updateDone store id (!current)

/-- Look a Todo up by id in the store (first match, as document ids are
unique at the store level). -/
def findTodo : List StoredTodo → String → Option StoredTodo
  | [], _ => none
  | d :: rest, id => if d.id == id then some d else findTodo rest id

/-! ### Comments (CommentSection.tsx handleAdd) -/

/-- A comment document as written under todos/{todoId}/comments. -/
structure CommentWrite where
  text : String
  createdAt : Timestamp
deriving DecidableEq

/-- Shallow embedding of CommentSection.handleAdd: when the trimmed text is
empty no write happens (none); otherwise one comment document is written
with the trimmed text and the client clock value now as createdAt. -/
def handleAdd (text : String) (now : Timestamp) : Option CommentWrite :=
  if jsTrim text = "" then none
  else some { text := jsTrim text, createdAt := now }

/-! ### Token registry (App.tsx saveTokenToFirestore) -/

/-- Device metadata read from the browser environment. -/
structure DeviceMeta where
  userAgent : String
  platform : String
  language : String
  timeZone : String
deriving DecidableEq

/-- The record written to tokens/{token}. The uid field is reserved and the
code always writes null for it. -/
structure TokenData where
  token : String
  createdAt : Timestamp
  userAgent : String
  platform : String
  language : String
  timeZone : String
  isMobile : Bool
  uid : Option String
deriving DecidableEq

/-- Does the pattern start the character list? -/
def startsWithChars : List Char → List Char → Bool
  | [], _ => true
  | _ :: _, [] => false
  | p :: ps, c :: cs => p == c && startsWithChars ps cs

/-- Does the pattern occur as a contiguous run of the character list? -/
def hasSubChars (pat : List Char) : List Char → Bool
  | [] => startsWithChars pat []
  | c :: cs => startsWithChars pat (c :: cs) || hasSubChars pat cs

/-- The case-insensitive mobile user-agent test
/Android|iPhone|iPad|iPod/i used by saveTokenToFirestore. -/
def isMobileUA (ua : String) : Bool :=
  let l := ua.toLower.toList
  hasSubChars "android".toList l || hasSubChars "iphone".toList l ||
    hasSubChars "ipad".toList l || hasSubChars "ipod".toList l

/-- The tokenData object built by saveTokenToFirestore from the token, the
device metadata and the client clock. -/
def mkTokenData (token : String) (meta : DeviceMeta) (now : Timestamp) :
    TokenData :=
  { token := token
    createdAt := now
    userAgent := meta.userAgent
    platform := meta.platform
    language := meta.language
    timeZone := meta.timeZone
    isMobile := isMobileUA meta.userAgent
    uid := none }

/-- Is a record with the given key present in the collection? -/
def hasKey : List (String × TokenData) → String → Bool
  | [], _ => false
  | kv :: rest, key => kv.fst == key || hasKey rest key

/-- setDoc(doc(db, "tokens", key), data, merge) : an upsert keyed by key.
The tokenData object sets every field of the record, so the merge
overwrites all of them; records under other keys are untouched. -/
def setDocMerge (store : List (String × TokenData)) (key : String)
    (data : TokenData) : List (String × TokenData) :=
  if hasKey store key then
    store.map fun kv => if kv.fst == key then (key, data) else kv
  else
    store ++ [(key, data)]

/-- saveTokenToFirestore (App.tsx): upsert the token record into the tokens
collection using the token value itself as the record key. -/
def saveTokenToFirestore (store : List (String × TokenData)) (token : String)
    (meta : DeviceMeta) (now : Timestamp) : List (String × TokenData) :=
  setDocMerge store token (mkTokenData token meta now)

/-- Number of records stored under a key. -/
def countKey : List (String × TokenData) → String → Nat
  | [], _ => 0
  | kv :: rest, key => (if kv.fst == key then 1 else 0) + countKey rest key

/-- The data of the record stored under a key, when present (first match, as
document ids are unique at the store level). -/
def lookupKey : List (String × TokenData) → String → Option TokenData
  | [], _ => none
  | kv :: rest, key => if kv.fst == key then some kv.snd else lookupKey rest key

/-! ### Push fan-out trigger (functions/src/index.ts onTodoCreated) -/

/-- Raw data of the freshly created Todo document, as read by the trigger. -/
structure TriggerTodoData where
  text : Option String
  imageUrl : Option String
deriving DecidableEq

/-- The notification block of the multicast payload. -/
structure PushNotification where
  title : String
  body : String
  imageUrl : Option String
deriving DecidableEq

/-- The multicast message handed to sendEachForMulticast: one notification
block, a web deep link, and the full token list. -/
structure MulticastMessage where
  notification : PushNotification
  link : String
  tokens : List String
deriving DecidableEq

/-- JS truthiness applied by `data.text || "(no text)"`: null, undefined and
the empty string all fall back to the placeholder. -/
def textOrPlaceholder (t : Option String) : String :=
  match t with
  | some s => if s = "" then "(no text)" else s
  | none => "(no text)"

/-- JS truthiness applied by `data.imageUrl || null`: null, undefined and
the empty string all become null. -/
def truthyUrl (u : Option String) : Option String :=
  match u with
  | some s => if s = "" then none else some s
  | none => none

/-- Shallow embedding of onTodoCreated (functions/src/index.ts): the trigger
reads the entire tokens collection (tokenIds is the list of all its document
ids); when it is empty the trigger logs and exits without sending; otherwise
it builds one multicast message addressed to every token and sends it in a
single sendEachForMulticast call. The result is the message sent, or none
when no send happens. -/
def onTodoCreated (data : TriggerTodoData) (tokenIds : List String) :
    Option MulticastMessage :=
  if tokenIds = [] then none
  else
    some
      { notification :=
          { title := "New Todo Added!"
            body := textOrPlaceholder data.text
            imageUrl := truthyUrl data.imageUrl }
        link := "https://chaelri.github.io/chaelri-todo/"
        tokens := tokenIds }

/-! ### Concrete environments and inputs used by witnesses -/

/-- Environment in which every asynchronous call succeeds. -/
def envOK : AddEnv :=
  { uploadOk := true, urlOk := true, urlOf := fun p => "url-" ++ p,
    writeOk := true }

/-- Environment in which the blob upload fails. -/
def envNoUpload : AddEnv :=
  { uploadOk := false, urlOk := true, urlOf := fun p => "url-" ++ p,
    writeOk := true }

/-- A sample device metadata record. -/
def metaA : DeviceMeta :=
  { userAgent := "Mozilla Android", platform := "Linux", language := "en",
    timeZone := "UTC" }

/-- A second sample device metadata record. -/
def metaB : DeviceMeta :=
  { userAgent := "Mozilla Mac", platform := "Mac", language := "de",
    timeZone := "CET" }

/-! ### Theorems -/

/-- C1: for every snapshot received by the Live List Synchronizer, the
local todo list it produces is sorted by createdAt descending and replaces
the previous list wholesale (the previous list does not influence the
result), under the hypothesis that the store delivers the documents of the
snapshot in createdAt-descending order. -/
theorem synchronizer_list_sorted_desc (prev : List TodoItem)
    (docs : List DocSnap)
    (h : docs.Pairwise fun a b => b.data.createdAt ≤ a.data.createdAt) :
    sortedByCreatedAtDesc (onSnapshotUpdate prev docs) ∧
    ∀ prev₂, onSnapshotUpdate prev₂ docs = onSnapshotUpdate prev docs := by
  constructor
  · unfold onSnapshotUpdate snapshotToList sortedByCreatedAtDesc
    exact List.Pairwise.map _ (fun a b hab => hab) h
  · intro prev₂
    rfl

/-- Witness for C1 at a concrete two-document snapshot. -/
theorem synchronizer_list_sorted_desc_witness :
    sortedByCreatedAtDesc (onSnapshotUpdate []
      [⟨"a", ⟨some "x", none, 5, some true⟩⟩,
       ⟨"b", ⟨none, some "u", 3, none⟩⟩]) :=
  (synchronizer_list_sorted_desc []
    [⟨"a", ⟨some "x", none, 5, some true⟩⟩,
     ⟨"b", ⟨none, some "u", 3, none⟩⟩] (by decide)).1

/-- C2: a create invocation with no text and no file (both absent or empty)
is rejected locally: no blob upload, no document write, the blocking
message is surfaced, and applying its writes leaves any store unchanged. -/
theorem create_rejected_when_empty (text : Option String) (file : Option File)
    (env : AddEnv) (now : Timestamp)
    (h : (text = none ∨ text = some "") ∧ file = none) :
    uploadsOf (addTodo text file env now) = [] ∧
    writesOf (addTodo text file env now) = [] ∧
    toastsOf (addTodo text file env now) = ["Please add text or an image."] ∧
    ∀ store, applyWrites store (writesOf (addTodo text file env now)) =
      store := by
  have hred : addTodo text file env now =
      [Event.toastMsg "Please add text or an image."] := by
    unfold addTodo
    rw [if_pos h]
  rw [hred]
  refine ⟨rfl, rfl, rfl, ?_⟩
  intro store
  simp [applyWrites, writesOf]

/-- Witness for C2 at the concrete empty input. -/
theorem create_rejected_when_empty_witness :
    uploadsOf (addTodo none none envOK 0) = [] ∧
    writesOf (addTodo none none envOK 0) = [] ∧
    toastsOf (addTodo none none envOK 0) =
      ["Please add text or an image."] ∧
    ∀ store, applyWrites store (writesOf (addTodo none none envOK 0)) =
      store :=
  create_rejected_when_empty none none envOK 0 ⟨Or.inl rfl, rfl⟩

/-- C3: a create invocation with non-empty text t and no file writes exactly
one Todo document, with text = t, imageUrl = null and done = false, under
the hypothesis that the document write succeeds. -/
theorem create_text_only_writes_one (t : String) (env : AddEnv)
    (now : Timestamp) (ht : t ≠ "") (hw : env.writeOk = true) :
    writesOf (addTodo (some t) none env now) =
      [{ text := t, imageUrl := none, createdAt := now, done := false }] := by
  unfold addTodo
  rw [if_neg]
  · simp [hw, writesOf]
  · rintro ⟨h1, -⟩
    rcases h1 with h | h
    · exact Option.noConfusion h
    · exact ht (Option.some.inj h)

/-- Witness for C3 at the concrete input of scenario A. -/
theorem create_text_only_writes_one_witness :
    writesOf (addTodo (some "Buy milk") none envOK 7) =
      [{ text := "Buy milk", imageUrl := none, createdAt := 7,
         done := false }] :=
  create_text_only_writes_one "Buy milk" envOK 7 (by decide) rfl

/-- C4: with a file present the blob upload is issued first (the trace
starts with the upload event); when upload, URL retrieval and write all
succeed the full trace is upload, then URL retrieval, then the document
write carrying the resolved URL, then the success toast; a document is
written only when upload and URL retrieval succeed; and when the upload
fails no document is written and the failure toast is surfaced. -/
theorem create_with_file_upload_first (t : Option String) (f : File)
    (env : AddEnv) (now : Timestamp) :
    (∃ rest, addTodo t (some f) env now =
      Event.upload (uploadPath now f) :: rest) ∧
    (env.uploadOk = true → env.urlOk = true → env.writeOk = true →
      addTodo t (some f) env now =
        [Event.upload (uploadPath now f), Event.getURL (uploadPath now f),
         Event.writeTodo
           { text := t.getD ""
             imageUrl := some (env.urlOf (uploadPath now f))
             createdAt := now
             done := false },
         Event.toastMsg "Todo added"]) ∧
    (writesOf (addTodo t (some f) env now) ≠ [] →
      env.uploadOk = true ∧ env.urlOk = true) ∧
    (env.uploadOk = false →
      writesOf (addTodo t (some f) env now) = [] ∧
      toastsOf (addTodo t (some f) env now) = ["Failed to add todo."]) := by
  have hneg : ¬ ((t = none ∨ t = some "") ∧ (some f : Option File) = none) := by
    rintro ⟨-, h⟩
    exact Option.noConfusion h
  unfold addTodo
  rw [if_neg hneg]
  cases hu : env.uploadOk <;> cases hru : env.urlOk <;>
    cases hw : env.writeOk <;>
    simp [writesOf, toastsOf]

/-- Witness for C4 at a concrete file input in the failing-upload
environment. -/
theorem create_with_file_upload_first_witness :
    writesOf (addTodo (some "pic") (some { name := "photo.png" })
      envNoUpload 3) = [] ∧
    toastsOf (addTodo (some "pic") (some { name := "photo.png" })
      envNoUpload 3) = ["Failed to add todo."] :=
  (create_with_file_upload_first (some "pic") { name := "photo.png" }
    envNoUpload 3).2.2.2 rfl

/-- Counterexample to C5 as stated: when the DeviceToken collection is
empty, the trigger exits without sending any multicast message, so it is
not the case that one multicast send happens for every created Todo. -/
theorem trigger_empty_registry_counterexample :
    ¬ ∃ msg, onTodoCreated { text := some "Buy milk", imageUrl := none } []
      = some msg := by
  rintro ⟨msg, h⟩
  simp [onTodoCreated] at h

/-- C5 amended: for every newly created Todo, when at least one token is
registered, the trigger sends exactly one multicast message in a single
batch call, addressed to every registered token, whose body is the text of
the Todo (or the placeholder when the text is null or empty) and whose
notification block carries the image URL exactly when one is present; when
the registry is empty it exits without sending. -/
theorem trigger_fanout_all_tokens (data : TriggerTodoData)
    (tokenIds : List String) (hreg : tokenIds ≠ [])
    (himg : data.imageUrl ≠ some "") :
    ∃ msg, onTodoCreated data tokenIds = some msg ∧
      msg.tokens = tokenIds ∧
      msg.notification.title = "New Todo Added!" ∧
      ((data.text = none ∨ data.text = some "") →
        msg.notification.body = "(no text)") ∧
      (∀ t, data.text = some t → t ≠ "" → msg.notification.body = t) ∧
      msg.notification.imageUrl = data.imageUrl := by
  refine ⟨{ notification :=
              { title := "New Todo Added!"
                body := textOrPlaceholder data.text
                imageUrl := truthyUrl data.imageUrl }
            link := "https://chaelri.github.io/chaelri-todo/"
            tokens := tokenIds }, ?_, rfl, rfl, ?_, ?_, ?_⟩
  · unfold onTodoCreated
    rw [if_neg hreg]
  · rintro (h | h) <;> simp [textOrPlaceholder, h]
  · intro t ht hne
    simp [textOrPlaceholder, ht, hne]
  · rcases hu : data.imageUrl with - | u
    · simp [truthyUrl]
    · have hne : u ≠ "" := by
        intro he
        exact himg (by rw [hu, he])
      simp [truthyUrl, hne]

/-- Witness for the amended C5 at a concrete Todo and registry. -/
theorem trigger_fanout_all_tokens_witness :
    ∃ msg, onTodoCreated { text := some "Buy milk", imageUrl := some "u1" }
        ["tokA", "tokB"] = some msg ∧
      msg.tokens = ["tokA", "tokB"] ∧
      msg.notification.title = "New Todo Added!" ∧
      ((some "Buy milk" = (none : Option String) ∨
        some "Buy milk" = some "") → msg.notification.body = "(no text)") ∧
      (∀ t, some "Buy milk" = some t → t ≠ "" →
        msg.notification.body = t) ∧
      msg.notification.imageUrl = some "u1" :=
  trigger_fanout_all_tokens
    { text := some "Buy milk", imageUrl := some "u1" } ["tokA", "tokB"]
    (by decide) (by decide)

/-- Overwriting all records under a key in place does not change how many
records the key has. -/
theorem countKey_overwrite (store : List (String × TokenData)) (key : String)
    (d : TokenData) :
    countKey (store.map fun kv => if kv.fst == key then (key, d) else kv) key
      = countKey store key := by
  induction store with
  | nil => rfl
  | cons kv rest ih =>
    cases hk : (kv.fst == key)
    · simpa [countKey, hk] using ih
    · simpa [countKey, hk] using ih

/-- A key that is absent has zero records. -/
theorem countKey_zero_of_not_hasKey (store : List (String × TokenData))
    (key : String) (h : hasKey store key = false) :
    countKey store key = 0 := by
  induction store with
  | nil => rfl
  | cons kv rest ih =>
    rw [hasKey] at h
    simp only [Bool.or_eq_false_iff] at h
    simp [countKey, h.1, ih h.2]

/-- A key that is present has at least one record. -/
theorem countKey_pos_of_hasKey (store : List (String × TokenData))
    (key : String) (h : hasKey store key = true) :
    1 ≤ countKey store key := by
  induction store with
  | nil => simp [hasKey] at h
  | cons kv rest ih =>
    cases hk : (kv.fst == key)
    · rw [hasKey] at h
      simp only [hk, Bool.false_or] at h
      simpa [countKey, hk] using ih h
    · simp [countKey, hk]

/-- Splitting a record count over an append. -/
theorem countKey_append (s₁ s₂ : List (String × TokenData)) (key : String) :
    countKey (s₁ ++ s₂) key = countKey s₁ key + countKey s₂ key := by
  induction s₁ with
  | nil => simp [countKey]
  | cons kv rest ih => simp [countKey, ih, Nat.add_assoc]

/-- After an upsert the key is present. -/
theorem hasKey_setDocMerge (store : List (String × TokenData)) (key : String)
    (d : TokenData) : hasKey (setDocMerge store key d) key = true := by
  unfold setDocMerge
  cases hk : hasKey store key
  · rw [if_neg (by simp [hk])]
    induction store with
    | nil => simp [hasKey]
    | cons kv rest ih =>
      cases hkv : (kv.fst == key)
      · rw [hasKey] at hk
        simp only [Bool.or_eq_false_iff] at hk
        simp [hasKey, hkv, ih hk.2]
      · simp [hasKey, hkv]
  · rw [if_pos rfl]
    induction store with
    | nil => simp [hasKey] at hk
    | cons kv rest ih =>
      cases hkv : (kv.fst == key)
      · rw [hasKey] at hk
        simp only [hkv, Bool.false_or] at hk
        simpa [hasKey, hkv] using ih hk
      · simp [hasKey, hkv]

/-- Upserting an already-present key keeps the record count of the store. -/
theorem setDocMerge_length_of_hasKey (store : List (String × TokenData))
    (key : String) (d : TokenData) (h : hasKey store key = true) :
    (setDocMerge store key d).length = store.length := by
  unfold setDocMerge
  rw [if_pos h, List.length_map]

/-- Looking the key up after appending its record at the end, when it was
absent before. -/
theorem lookupKey_append_miss (store : List (String × TokenData))
    (key : String) (d : TokenData) (h : hasKey store key = false) :
    lookupKey (store ++ [(key, d)]) key = some d := by
  induction store with
  | nil => simp [lookupKey]
  | cons kv rest ih =>
    rw [hasKey] at h
    simp only [Bool.or_eq_false_iff] at h
    simp [lookupKey, h.1, ih h.2]

/-- Looking the key up after overwriting its records in place. -/
theorem lookupKey_overwrite (store : List (String × TokenData)) (key : String)
    (d : TokenData) (h : hasKey store key = true) :
    lookupKey (store.map fun kv => if kv.fst == key then (key, d) else kv) key
      = some d := by
  induction store with
  | nil => simp [hasKey] at h
  | cons kv rest ih =>
    cases hkv : (kv.fst == key)
    · rw [hasKey] at h
      simp only [hkv, Bool.false_or] at h
      simpa [lookupKey, hkv] using ih h
    · simp [lookupKey, hkv]

/-- An upsert always leaves the upserted data under the key. -/
theorem lookupKey_setDocMerge (store : List (String × TokenData))
    (key : String) (d : TokenData) :
    lookupKey (setDocMerge store key d) key = some d := by
  unfold setDocMerge
  cases hk : hasKey store key
  · rw [if_neg (by simp [hk])]
    exact lookupKey_append_miss store key d hk
  · rw [if_pos rfl]
    exact lookupKey_overwrite store key d hk

/-- An upsert into a store holding at most one record under the key leaves
exactly one record under the key. -/
theorem countKey_setDocMerge (store : List (String × TokenData))
    (key : String) (d : TokenData) (h : countKey store key ≤ 1) :
    countKey (setDocMerge store key d) key = 1 := by
  unfold setDocMerge
  cases hk : hasKey store key
  · rw [if_neg (by simp [hk])]
    rw [countKey_append, countKey_zero_of_not_hasKey store key hk]
    simp [countKey]
  · rw [if_pos rfl]
    rw [countKey_overwrite]
    have := countKey_pos_of_hasKey store key hk
    omega

/-- C6: registering the same device token twice produces exactly one
DeviceToken record keyed by the token value, with the data of the second
registration (its metadata fields overwriting those of the first), and the
second registration does not change the number of records in the
collection, under the store invariant that the key held at most one record
to begin with. -/
theorem register_token_twice_one_record (store : List (String × TokenData))
    (tok : String) (m₁ m₂ : DeviceMeta) (t₁ t₂ : Timestamp)
    (h : countKey store tok ≤ 1) :
    countKey (saveTokenToFirestore (saveTokenToFirestore store tok m₁ t₁)
      tok m₂ t₂) tok = 1 ∧
    lookupKey (saveTokenToFirestore (saveTokenToFirestore store tok m₁ t₁)
      tok m₂ t₂) tok = some (mkTokenData tok m₂ t₂) ∧
    (saveTokenToFirestore (saveTokenToFirestore store tok m₁ t₁)
      tok m₂ t₂).length
      = (saveTokenToFirestore store tok m₁ t₁).length := by
  have h₁ : countKey (saveTokenToFirestore store tok m₁ t₁) tok = 1 :=
    countKey_setDocMerge store tok (mkTokenData tok m₁ t₁) h
  have hk₁ : hasKey (saveTokenToFirestore store tok m₁ t₁) tok = true :=
    hasKey_setDocMerge store tok (mkTokenData tok m₁ t₁)
  refine ⟨?_, ?_, ?_⟩
  · exact countKey_setDocMerge _ tok (mkTokenData tok m₂ t₂) (by omega)
  · exact lookupKey_setDocMerge _ tok (mkTokenData tok m₂ t₂)
  · exact setDocMerge_length_of_hasKey _ tok (mkTokenData tok m₂ t₂) hk₁

/-- Witness for C6: the same token registered twice into an empty
collection. -/
theorem register_token_twice_one_record_witness :
    countKey (saveTokenToFirestore (saveTokenToFirestore [] "tokX" metaA 1)
      "tokX" metaB 2) "tokX" = 1 ∧
    lookupKey (saveTokenToFirestore (saveTokenToFirestore [] "tokX" metaA 1)
      "tokX" metaB 2) "tokX" = some (mkTokenData "tokX" metaB 2) ∧
    (saveTokenToFirestore (saveTokenToFirestore [] "tokX" metaA 1)
      "tokX" metaB 2).length
      = (saveTokenToFirestore [] "tokX" metaA 1).length :=
  register_token_twice_one_record [] "tokX" metaA metaB 1 2 (by decide)

/-- A done-field write is visible through lookup: the looked-up document is
the old one with its done flag replaced. -/
theorem findTodo_updateDone (store : List StoredTodo) (id : String)
    (b : Bool) :
    findTodo (updateDone store id b) id =
      (findTodo store id).map fun d => { d with done := b } := by
  induction store with
  | nil => rfl
  | cons d rest ih =>
    by_cases hd : d.id = id
    · simp [findTodo, updateDone, hd]
    · simpa [findTodo, updateDone, hd] using ih

/-- C7: toggling the done flag of a Todo twice, each application reading
the then-current value from the store, leaves the flag at its original
value. -/
theorem toggle_done_twice_identity (store : List StoredTodo) (id : String)
    (d d₁ d₂ : StoredTodo)
    (h : findTodo store id = some d)
    (h₁ : findTodo (toggleDone store id d.done) id = some d₁)
    (h₂ : findTodo (toggleDone (toggleDone store id d.done) id d₁.done) id
      = some d₂) :
    d₂.done = d.done := by
  unfold toggleDone at h₁ h₂
  rw [findTodo_updateDone, h] at h₁
  rw [findTodo_updateDone, findTodo_updateDone, h] at h₂
  simp only [Option.map_some'] at h₁ h₂
  have e₁ := Option.some.inj h₁
  have e₂ := Option.some.inj h₂
  rw [← e₂, ← e₁]
  simp

/-- Witness for C7 at a concrete one-element store. -/
theorem toggle_done_twice_identity_witness :
    (⟨"a", "milk", none, 0, false⟩ : StoredTodo).done =
      (⟨"a", "milk", none, 0, false⟩ : StoredTodo).done :=
  toggle_done_twice_identity [⟨"a", "milk", none, 0, false⟩] "a"
    ⟨"a", "milk", none, 0, false⟩ ⟨"a", "milk", none, 0, true⟩
    ⟨"a", "milk", none, 0, false⟩ (by decide) (by decide) (by decide)

/-- Every Todo document written by addTodo carries as its text the supplied
text with null defaulted to the empty string. -/
theorem addTodo_writes_text (t : Option String) (file : Option File)
    (env : AddEnv) (now : Timestamp) :
    ((writesOf (addTodo t file env now)).all fun w => w.text == t.getD "")
      = true := by
  unfold addTodo
  by_cases hg : (t = none ∨ t = some "") ∧ file = none
  · rw [if_pos hg]
    rfl
  · rw [if_neg hg]
    cases file with
    | none => cases hw : env.writeOk <;> simp [writesOf]
    | some f =>
      cases hu : env.uploadOk <;> cases hru : env.urlOk <;>
        cases hw : env.writeOk <;> simp [writesOf]

/-- Counterexample to C8 as stated: the createdAt field written for a new
Todo is not server-assigned but follows the client clock — two create
invocations differing only in the client clock value write different
createdAt values. -/
theorem createdAt_not_server_assigned_counterexample :
    ¬ ((writesOf (addTodo (some "hi") none envOK 5)).map TodoWrite.createdAt
      = (writesOf (addTodo (some "hi") none envOK 7)).map
        TodoWrite.createdAt) := by
  decide

/-- C8 amended: the createdAt field of every Todo document and of every
comment document written by this client equals the client clock value at
the time of the write (Timestamp.now()), hence it is chosen by the client
rather than assigned by the server. -/
theorem createdAt_is_client_clock (text : Option String) (file : Option File)
    (env : AddEnv) (now : Timestamp) (ctext : String) :
    ((writesOf (addTodo text file env now)).all fun w => w.createdAt == now)
      = true ∧
    ∀ c, handleAdd ctext now = some c → c.createdAt = now := by
  constructor
  · unfold addTodo
    by_cases hg : (text = none ∨ text = some "") ∧ file = none
    · rw [if_pos hg]
      rfl
    · rw [if_neg hg]
      cases file with
      | none => cases hw : env.writeOk <;> simp [writesOf]
      | some f =>
        cases hu : env.uploadOk <;> cases hru : env.urlOk <;>
          cases hw : env.writeOk <;> simp [writesOf]
  · intro c hc
    unfold handleAdd at hc
    by_cases ht : jsTrim ctext = ""
    · rw [if_pos ht] at hc
      exact Option.noConfusion hc
    · rw [if_neg ht] at hc
      rw [← Option.some.inj hc]

/-- Witness for the amended C8 at a concrete comment write. -/
theorem createdAt_is_client_clock_witness :
    ({ text := "hi", createdAt := 4 } : CommentWrite).createdAt = 4 :=
  (createdAt_is_client_clock (some "x") none envOK 4 "hi").2
    { text := "hi", createdAt := 4 } (by decide)

/-- C9: the add-comment operation writes nothing when the trimmed input is
empty, and every comment it does write stores exactly the trimmed input,
which is non-empty. -/
theorem comment_nonempty_trimmed (text : String) (now : Timestamp) :
    (jsTrim text = "" → handleAdd text now = none) ∧
    ∀ c, handleAdd text now = some c →
      c.text = jsTrim text ∧ c.text ≠ "" := by
  constructor
  · intro h
    unfold handleAdd
    rw [if_pos h]
  · intro c hc
    unfold handleAdd at hc
    by_cases ht : jsTrim text = ""
    · rw [if_pos ht] at hc
      exact Option.noConfusion hc
    · rw [if_neg ht] at hc
      rw [← Option.some.inj hc]
      exact ⟨rfl, ht⟩

/-- Witness for C9 at a concrete whitespace-only input. -/
theorem comment_nonempty_trimmed_witness :
    handleAdd "   " 5 = none :=
  (comment_nonempty_trimmed "   " 5).1 (by decide)

/-- C10: evaluation of the code at the failing input. Submitting the form
with a whitespace-only text and a file does not produce a Todo document
with empty text: the submission throws the reference error for
requestNotificationsIfNeeded before the guard, no blob upload happens, no
document is written, and no user-visible message is surfaced. The
intended invariant that the claim describes does hold one level down, at
addTodo (addTodo_writes_text), which the form never reaches. -/
theorem form_submit_throws_before_write :
    handleSubmit " " (some { name := "photo.png" }) envOK 3
      = [Event.throwRef "requestNotificationsIfNeeded"] ∧
    writesOf (handleSubmit " " (some { name := "photo.png" }) envOK 3)
      = [] ∧
    uploadsOf (handleSubmit " " (some { name := "photo.png" }) envOK 3)
      = [] ∧
    toastsOf (handleSubmit " " (some { name := "photo.png" }) envOK 3)
      = [] := by
  refine ⟨rfl, rfl, rfl, rfl⟩
